import Mathlib

/-
Shallow embedding of the agentops session telemetry pipeline.

Each definition transcribes one Python function from the repository
(file and symbol named in its doc comment).  Timestamps are modelled as
abstract instants (Nat) produced by a clock parameter standing for
get_ISO_time; UUIDs are modelled as Nat; network interactions are
modelled by explicit oracle parameters (the response the remote endpoint
would give), and observable side effects (signals, HTTP calls, flushes)
are returned as explicit effect traces.
-/

namespace AgentOps

/-- Model of a Python value as stored in event fields and span attributes.
Containers (dict, list) and arbitrary objects are modelled by their
serialized string form, which is all the translator ever does with them. -/
inductive PyVal where
  | pstr (s : String)
  | pint (n : Int)
  | pfloat (n : Int)
  | pbool (b : Bool)
  | pnone
  | puuid (u : Nat)
  | pdict (json : String)
  | plist (json : String)
  | pobj (s : String)
deriving DecidableEq, Repr

/-- Python truthiness for the modelled values: None, empty string, zero,
False, empty dict and empty list are falsy. -/
def pyTruthy : PyVal → Bool
  | .pstr s => s ≠ ""
  | .pint n => n ≠ 0
  | .pfloat n => n ≠ 0
  | .pbool b => b
  | .pnone => false
  | .puuid _ => true
  | .pdict j => j ≠ "{}"
  | .plist j => j ≠ "[]"
  | .pobj _ => true

/-- Truthiness of an optional string field (Python: falsy when None or empty). -/
def pyTruthyStrOpt : Option String → Bool
  | none => false
  | some s => s ≠ ""

/-- Truthiness of an optional value field. -/
def pyTruthyOpt : Option PyVal → Bool
  | none => false
  | some v => pyTruthy v

/-- Rendering of a UUID (str(uuid) in Python). -/
def uuidStr (u : Nat) : String := toString u

/-- Rendering of a timestamp (the ISO-8601 string carried by the event). -/
def isoStr (t : Nat) : String := toString t

/-- Model of json.dumps applied to a PyVal. -/
def jsonDumpsP : PyVal → String
  | .pstr s => "\"" ++ s ++ "\""
  | .pint n => toString n
  | .pfloat n => toString n
  | .pbool b => if b then "true" else "false"
  | .pnone => "null"
  | .puuid u => uuidStr u
  | .pdict j => j
  | .plist j => j
  | .pobj s => s

/-- Event categories of event.py EventType (values are the dict keys of
Session.event_counts). -/
inductive EventKind where
  | llms
  | actions
  | apis
  | tools
  | errors
deriving DecidableEq, Repr

/-- EventType.value for each enum member. -/
def kindValue : EventKind → String
  | .llms => "llms"
  | .actions => "actions"
  | .apis => "apis"
  | .tools => "tools"
  | .errors => "errors"

/-- Python enum member name, as rendered by str(EventType.X). -/
def kindEnumStr : EventKind → String
  | .llms => "EventType.LLM"
  | .actions => "EventType.ACTION"
  | .apis => "EventType.API"
  | .tools => "EventType.TOOL"
  | .errors => "EventType.ERROR"

/-- An event_type field after Event.post_init: either a recognized
EventType member or a custom string that failed enum conversion. -/
abbrev EventTypeField : Type := EventKind ⊕ String

/-- String form used by on_event_record: the enum value for members,
str(event_type) for custom strings. -/
def eventTypeStr : EventTypeField → String
  | .inl k => kindValue k
  | .inr s => s

/-- Attribute value of a raw event_type as attached by the translator
(str or Enum object). -/
def eventTypeVal : EventTypeField → PyVal
  | .inl k => .pobj (kindEnumStr k)
  | .inr s => .pstr s

/-- Common fields of event.py Event. -/
structure EventBase where
  eventType : EventTypeField
  params : Option PyVal
  returns : Option PyVal
  initTimestamp : Nat
  endTimestamp : Option Nat
  agentId : Option Nat
  id : Nat
  sessionId : Option Nat
deriving DecidableEq, Repr

/-- Variant fields of event.py LLMEvent. -/
structure LLMData where
  threadId : Option Nat
  prompt : Option PyVal
  promptTokens : Option Int
  completion : Option PyVal
  completionTokens : Option Int
  cost : Option Int
  model : Option String
deriving DecidableEq, Repr

/-- Variant fields of event.py ActionEvent. -/
structure ActionData where
  actionType : Option String
  logs : Option PyVal
  screenshot : Option String
deriving DecidableEq, Repr

/-- Variant fields of event.py ToolEvent. -/
structure ToolData where
  name : Option String
  logs : Option PyVal
deriving DecidableEq, Repr

/-- The id, event_type and string form of a trigger event referenced by an
ErrorEvent (only these projections of the trigger are ever read). -/
structure TriggerInfo where
  id : Nat
  eventType : EventTypeField
  objRepr : String
deriving DecidableEq, Repr

/-- Variant fields of event.py ErrorEvent after construction. -/
structure ErrorData where
  triggerEvent : Option TriggerInfo
  errorType : Option String
  code : Option String
  details : Option PyVal
  logs : Option PyVal
deriving DecidableEq, Repr

/-- An event as dispatched on by isinstance in the translator: exactly one
of the four dataclass variants, or a bare base Event. -/
inductive AOEvent where
  | llm (b : EventBase) (d : LLMData)
  | action (b : EventBase) (d : ActionData)
  | tool (b : EventBase) (d : ToolData)
  | err (b : EventBase) (d : ErrorData)
  | generic (b : EventBase)
deriving DecidableEq, Repr

/-- Common base of any event. -/
def AOEvent.base : AOEvent → EventBase
  | .llm b _ => b
  | .action b _ => b
  | .tool b _ => b
  | .err b _ => b
  | .generic b => b

/-- The event_type string computed by on_event_record
(instrumentation.py line 266). -/
def eventTypeStrOf (e : AOEvent) : String := eventTypeStr e.base.eventType

/-
Event timestamp handlers.

src/agentops/event.py lines 31 to 44 and the timestamp-defaulting prefix
of on_event_record, src/agentops/instrumentation.py lines 246 to 252.
The clock argument stands for get_ISO_time at the moment of the call.
-/

/-- Transcription of on_event_recorded (event.py lines 31 to 36): the
handler asserts that end_timestamp is not already set, then stamps it.
A violated assertion is an AssertionError, modelled as Except.error. -/
def onEventRecorded (e : EventBase) (now : Nat) : Except String EventBase :=
  if e.endTimestamp.isSome then
    .error "Programming error: attempted ending an Event with valued end_timestamp"
  else
    .ok { e with endTimestamp := some now }

/-- Transcription of on_event_completed (event.py lines 39 to 44): stamps
end_timestamp only when it is not yet set. -/
def onEventCompleted (e : EventBase) (now : Nat) : EventBase :=
  if e.endTimestamp.isSome then e else { e with endTimestamp := some now }

/-- Transcription of the attribute-defaulting prefix of on_event_record
(instrumentation.py lines 246 to 252).  The dataclass always has the id,
init_timestamp and end_timestamp attributes, so the hasattr guards are
vacuous and only the None check on end_timestamp is observable. -/
def onEventRecordDefaults (e : EventBase) (now : Nat) : EventBase :=
  match e.endTimestamp with
  | none => { e with endTimestamp := some now }
  | some _ => e

/-
ErrorEvent construction, src/agentops/event.py lines 193 to 202.
-/

/-- A Python exception object as read by ErrorEvent.post_init: its class
name and its str() form. -/
structure PyExc where
  className : String
  msg : String
deriving DecidableEq, Repr

/-- Fields of an ErrorEvent involved in post_init. -/
structure ErrorEventFields where
  endTimestamp : Option Nat
  triggerEvent : Option TriggerInfo
  exception : Option PyExc
  errorType : Option String
  code : Option String
  details : Option PyVal
deriving DecidableEq, Repr

/-- Transcription of ErrorEvent.post_init (event.py lines 193 to 202):
when an exception is present, error_type and details default to the
exception class name and str() form under Python truthiness (an or
expression), the exception field is cleared, and end_timestamp is stamped
when not already set. -/
def errorEventPostInit (e : ErrorEventFields) (now : Nat) : ErrorEventFields :=
  let e1 :=
    match e.exception with
    | some exc =>
        { e with
            errorType := if pyTruthyStrOpt e.errorType then e.errorType else some exc.className
            details := if pyTruthyOpt e.details then e.details else some (.pstr exc.msg)
            exception := none }
    | none => e
  if e1.endTimestamp.isSome then e1 else { e1 with endTimestamp := some now }

/-
Session state, src/agentops/session/session.py.
-/

/-- The event_counts dictionary (session.py lines 79 to 81), keyed by the
five category strings. -/
structure EventCounts where
  llms : Nat
  tools : Nat
  actions : Nat
  errors : Nat
  apis : Nat
deriving DecidableEq, Repr

/-- Dictionary lookup on event_counts: some value for the five keys of the
dict, none for any other key. -/
def EventCounts.get (c : EventCounts) (k : String) : Option Nat :=
  if k = "llms" then some c.llms
  else if k = "tools" then some c.tools
  else if k = "actions" then some c.actions
  else if k = "errors" then some c.errors
  else if k = "apis" then some c.apis
  else none

/-- Transcription of the counter update in on_event_record
(instrumentation.py lines 280 to 281): increment only when the key is
present in the dict. -/
def EventCounts.incrKey (c : EventCounts) (k : String) : EventCounts :=
  if k = "llms" then { c with llms := c.llms + 1 }
  else if k = "tools" then { c with tools := c.tools + 1 }
  else if k = "actions" then { c with actions := c.actions + 1 }
  else if k = "errors" then { c with errors := c.errors + 1 }
  else if k = "apis" then { c with apis := c.apis + 1 }
  else c

/-- The five keys of the event_counts dict. -/
def catKeys : List String := ["llms", "tools", "actions", "errors", "apis"]

/-- Session state (the dataclass fields of session.py lines 65 to 83 that
the public operations read or write). -/
structure Session where
  isRunning : Bool
  tags : List String
  tokenCost : Nat
  endState : String
  endStateReason : Option String
  endTimestamp : Option Nat
  video : Option String
  eventCounts : EventCounts
  initTimestamp : Nat
deriving DecidableEq, Repr

/-- Observable side effects of the session operations: lifecycle signals,
network calls and processor flushes. -/
inductive Effect where
  | sessionEnding
  | sessionEnded
  | netUpdate
  | flushSpans
  | warnInvalidEndState
deriving DecidableEq, Repr

/-- Validity test on end_state performed by Session.end (session.py line
224): exact comparison against the three EndState values. -/
def validEndState (s : String) : Bool :=
  s = "Success" || s = "Fail" || s = "Indeterminate"

/-- Transcription of Session.record (session.py lines 168 to 174) composed
with the event_recorded handler on_event_record (instrumentation.py lines
240 to 285), whose only effect on session state is the counter update
performed inside the event span. -/
def Session.record (s : Session) (e : AOEvent) : Session :=
  if !s.isRunning then s
  else { s with eventCounts := s.eventCounts.incrKey (eventTypeStrOf e) }

/-- Transcription of Session.add_tags (session.py lines 176 to 197)
restricted to its effect on the tags list: append the tags that are not
already present. -/
def Session.addTags (s : Session) (ts : List String) : Session :=
  if !s.isRunning then s
  else
    { s with tags := ts.foldl (fun acc t => if acc.contains t then acc else acc ++ [t]) s.tags }

/-- Transcription of Session.set_tags (session.py lines 199 to 212)
restricted to its effect on the tags list. -/
def Session.setTags (s : Session) (ts : List String) : Session :=
  if !s.isRunning then s else { s with tags := ts }

/-- Network oracle for the update_session endpoint: none models a failed
call (exception or missing response), some tc a response whose optional
token_cost field is tc. -/
abbrev UpdateResponse : Type := Option (Option Nat)

/-- Analytics dictionary returned by Session.get_analytics (session.py
lines 429 to 436), with the duration kept as the timestamp pair it is
formatted from. -/
structure SessionStats where
  llmCalls : Nat
  toolCalls : Nat
  actions : Nat
  errors : Nat
  durationStart : Nat
  durationEnd : Nat
  cost : Nat
deriving DecidableEq, Repr

/-- Transcription of Session.get_analytics (session.py lines 418 to 436):
stamp end_timestamp when missing, perform one update_session network call
via get_response, return None when the call fails, otherwise store the
token cost (get_token_cost maps a missing or unknown field to 0) and
return the stats dictionary. -/
def Session.getAnalytics (s : Session) (now : Nat) (net : UpdateResponse) :
    Session × Option SessionStats × List Effect :=
  let s1 := if s.endTimestamp.isSome then s else { s with endTimestamp := some now }
  match net with
  | none => (s1, none, [.netUpdate])
  | some tc =>
      let s2 := { s1 with tokenCost := tc.getD 0 }
      (s2,
       some
         { llmCalls := s2.eventCounts.llms
           toolCalls := s2.eventCounts.tools
           actions := s2.eventCounts.actions
           errors := s2.eventCounts.errors
           durationStart := s2.initTimestamp
           durationEnd := s1.endTimestamp.getD now
           cost := s2.tokenCost },
       [.netUpdate])

/-- Transcription of Session.end (session.py lines 214 to 262) together
with the session_ended handler on_session_end (instrumentation.py lines
221 to 237), whose cleanup forces a flush of the span processor.  Holding
the end-session lock, the code returns None at once when the session is
no longer running; warns and returns None on an end_state outside the
EndState values; otherwise it signals session_ending, stamps the terminal
fields, runs get_analytics (one update_session call), and in the finally
block clears is_running and signals session_ended, whose handler flushes.
The returned value is the token cost when analytics were obtained. -/
def Session.endSession (s : Session) (now : Nat) (endState : String)
    (reason : Option String) (video : Option String) (net : UpdateResponse) :
    Session × Option Nat × List Effect :=
  if !s.isRunning then (s, none, [])
  else if !validEndState endState then (s, none, [.warnInvalidEndState])
  else
    let s1 := { s with
        endTimestamp := some now
        endState := endState
        endStateReason := reason
        video := match video with | some v => some v | none => s.video }
    let res := s1.getAnalytics now net
    let ret := match res.2.1 with | some _ => some res.1.tokenCost | none => none
    ({ res.1 with isRunning := false }, ret,
     [.sessionEnding] ++ res.2.2 ++ [.sessionEnded, .flushSpans])

/-- A public operation on a session, for stating state invariants over
operation sequences. -/
inductive SOp where
  | recE (e : AOEvent)
  | addT (ts : List String)
  | setT (ts : List String)
  | endS (now : Nat) (es : String) (reason : Option String) (vid : Option String)
      (net : UpdateResponse)
  | analytics (now : Nat) (net : UpdateResponse)
deriving Repr

/-- State transition of one public operation. -/
def applySOp (s : Session) : SOp → Session
  | .recE e => s.record e
  | .addT ts => s.addTags ts
  | .setT ts => s.setTags ts
  | .endS now es r v net => (s.endSession now es r v net).1
  | .analytics now net => (s.getAnalytics now net).1

/-- Folding a sequence of public operations over a session. -/
def runOps (s : Session) (ops : List SOp) : Session := ops.foldl applySOp s

/-- Recognizer for the get_analytics operation. -/
def SOp.isAnalytics : SOp → Bool
  | .analytics _ _ => true
  | _ => false

/-- A session as freshly constructed by the dataclass defaults (session.py
lines 65 to 83): running, empty tags, zero counters, no terminal data. -/
def sessionZero : Session :=
  { isRunning := true
    tags := []
    tokenCost := 0
    endState := "Indeterminate"
    endStateReason := none
    endTimestamp := none
    video := none
    eventCounts := { llms := 0, tools := 0, actions := 0, errors := 0, apis := 0 }
    initTimestamp := 0 }

/-
Span exporter, src/agentops/session/exporters.py lines 24 to 102.
-/

/-- Result type of a span export (SpanExportResult). -/
inductive SpanExportResult where
  | success
  | failure
deriving DecidableEq, Repr

/-- Outcome of an export call: a returned result, or a re-raised exception
in strict (TESTING) mode. -/
inductive ExportOutcome where
  | ok (r : SpanExportResult)
  | raised
deriving DecidableEq, Repr

/-- A finished span as seen by the exporter: the keys of its attribute
dict (the only part export inspects) and its decoded event payload, which
decode_span_to_event_data produces one-per-span. -/
structure RSpan where
  attrKeys : List String
  payload : String
deriving DecidableEq, Repr

/-- Partition test in export (exporters.py line 63): a span is a session
lifecycle span when its attributes contain session.start or session.end. -/
def RSpan.isSessionSpan (sp : RSpan) : Bool :=
  sp.attrKeys.contains "session.start" || sp.attrKeys.contains "session.end"

/-- The events list built by export (exporters.py lines 49 to 69): one
decoded event per span, regular events first, then session events. -/
def buildEvents (spans : List RSpan) : List RSpan :=
  spans.filter (fun sp => !sp.isSessionSpan) ++ spans.filter RSpan.isSessionSpan

/-- Network oracle for the create_events endpoint: some code is an HTTP
response with that status code, none is an exception raised by the post. -/
abbrev PostResponse : Type := Option Nat

/-- Transcription of SessionExporter.export (exporters.py lines 39 to 94).
The first component is the outcome, the second the number of HTTP calls
performed.  When the shutdown flag is set the call returns success with no
work; an empty batch returns success with no work; otherwise one post is
made and HTTP 200 maps to success, any other code to failure, and an
exception to failure, re-raised instead when TESTING is set. -/
def sessionExport (testing : Bool) (shutdownFlag : Bool) (spans : List RSpan)
    (net : PostResponse) : ExportOutcome × Nat :=
  if shutdownFlag then (.ok .success, 0)
  else if spans.isEmpty then (.ok .success, 0)
  else
    let events := buildEvents spans
    if events.isEmpty then (.ok .success, 0)
    else
      match net with
      | some code => (.ok (if code = 200 then .success else .failure), 1)
      | none => (if testing then .raised else .ok .failure, 1)

/-
Batching span processor configuration, src/agentops/instrumentation.py
lines 151 to 160 (SessionTracer.init).
-/

/-- The max_export_batch_size passed to BatchSpanProcessor
(instrumentation.py lines 155 to 158). -/
def maxExportBatchSize (maxQueueSize : Nat) : Nat :=
  min (max (maxQueueSize / 20) 1) (min maxQueueSize 32)

/-- Modelled from the spec: the clamp function the spec describes the
derived batch size with, clamp(x, lo, hi) = min(max(x, lo), hi). -/
def specClamp (x lo hi : Nat) : Nat := min (max x lo) hi

/-
Event-to-span translator, src/agentops/telemetry/converter.py.
-/

/-- Attribute dictionaries are association lists with Python dict
semantics: insertion order, later assignment to an existing key replaces
its value in place. -/
abbrev AList : Type := List (String × PyVal)

/-- Dict assignment: replace the value of an existing key, or append. -/
def dinsert (m : AList) (k : String) (v : PyVal) : AList :=
  if m.any (fun p => p.1 = k) then m.map (fun p => if p.1 = k then (k, v) else p)
  else m ++ [(k, v)]

/-- Dict update, folding assignments left to right. -/
def dupdate (m : AList) (kvs : List (String × PyVal)) : AList :=
  kvs.foldl (fun acc kv => dinsert acc kv.1 kv.2) m

/-- A dict literal: assignments applied to the empty dict, so a duplicated
key keeps its last value only. -/
def mkDict (kvs : List (String × PyVal)) : AList := dupdate [] kvs

/-- Transcription of span_safe (converter.py lines 82 to 90): primitives
and None pass through, UUIDs become their string form, dicts and lists
their json form, anything else its str() form. -/
def spanSafe : PyVal → PyVal
  | .pstr s => .pstr s
  | .pint n => .pint n
  | .pfloat n => .pfloat n
  | .pbool b => .pbool b
  | .pnone => .pnone
  | .puuid u => .pstr (uuidStr u)
  | .pdict j => .pstr j
  | .plist j => .pstr j
  | .pobj s => .pstr s

/-- A value is a primitive in the sense of span attribute storage. -/
def isPrimitiveVal : PyVal → Bool
  | .pstr _ => true
  | .pint _ => true
  | .pfloat _ => true
  | .pbool _ => true
  | _ => false

/-- A value is a primitive or the None placeholder. -/
def isPrimOrNone (v : PyVal) : Bool := isPrimitiveVal v || v = .pnone

/-- OpenTelemetry span kinds used by the converter. -/
inductive SpanKind where
  | internal
  | client
deriving DecidableEq, Repr

/-- Transcription of SpanDefinition (converter.py lines 93 to 105): the
constructor passes every attribute value through span_safe. -/
structure SpanDefinition where
  name : String
  attributes : AList
  parentSpanId : Option String
  kind : Option SpanKind
deriving DecidableEq, Repr

/-- SpanDefinition construction (converter.py line 103). -/
def mkSpanDefinition (name : String) (attrs : AList) (parent : Option String)
    (kind : Option SpanKind) : SpanDefinition :=
  { name := name
    attributes := attrs.map (fun p => (p.1, spanSafe p.2))
    parentSpanId := parent
    kind := kind }

/-- Attribute value of an optional string field. -/
def optStrV : Option String → PyVal
  | some s => .pstr s
  | none => .pnone

/-- Attribute value of an optional integer field. -/
def optIntV : Option Int → PyVal
  | some n => .pint n
  | none => .pnone

/-- Attribute value of an optional float field. -/
def optFloatV : Option Int → PyVal
  | some n => .pfloat n
  | none => .pnone

/-- Attribute value of an optional object-valued field. -/
def optV : Option PyVal → PyVal
  | some v => v
  | none => .pnone

/-- Attribute value of an optional timestamp field (the raw ISO string, or
None when the event is not closed). -/
def optTimeV : Option Nat → PyVal
  | some t => .pstr (isoStr t)
  | none => .pnone

/-- Transcription of get_span_name (converter.py lines 153 to 164),
dispatching on the event dataclass. -/
def getSpanName : AOEvent → String
  | .llm _ _ => "llm.completion"
  | .action _ _ => "agent.action"
  | .tool _ _ => "agent.tool"
  | .err _ _ => "error"
  | .generic _ => "event"

/-- Transcription of get_span_kind (converter.py lines 166 to 173). -/
def getSpanKind : AOEvent → SpanKind
  | .llm _ _ => .client
  | _ => .internal

/-- The lowercased class name with the event suffix removed (converter.py
line 179 and line 273). -/
def classShort : AOEvent → String
  | .llm _ _ => "llm"
  | .action _ _ => "action"
  | .tool _ _ => "tool"
  | .err _ _ => "error"
  | .generic _ => ""

/-- Common attribute entries of get_span_attributes (converter.py lines
181 to 192). -/
def commonAttrs (b : EventBase) : List (String × PyVal) :=
  [("event.start_time", .pstr (isoStr b.initTimestamp)),
   ("event.end_time", optTimeV b.endTimestamp),
   ("event.id", .pstr (uuidStr b.id)),
   ("session.id", match b.sessionId with
     | some sid => .pstr (uuidStr sid)
     | none => .pnone)] ++
  (match b.agentId with
   | some aid => [("agent.id", .pstr (uuidStr aid)), ("agent_id", .pstr (uuidStr aid))]
   | none => [])

/-- Transcription of get_span_attributes (converter.py lines 175 to 268):
common attributes followed by the category-specific dict update.  The
total token count uses Python or-defaulting, numerically getD 0. -/
def getSpanAttributes : AOEvent → AList
  | .llm b d =>
      dupdate (mkDict (commonAttrs b))
        [("llm.model", optStrV d.model),
         ("llm.prompt", optV d.prompt),
         ("llm.completion", optV d.completion),
         ("llm.tokens.prompt", optIntV d.promptTokens),
         ("llm.tokens.completion", optIntV d.completionTokens),
         ("llm.cost", optFloatV d.cost),
         ("llm.tokens.total", .pint (d.promptTokens.getD 0 + d.completionTokens.getD 0)),
         ("model", optStrV d.model),
         ("prompt", optV d.prompt),
         ("completion", optV d.completion),
         ("prompt_tokens", optIntV d.promptTokens),
         ("completion_tokens", optIntV d.completionTokens),
         ("cost", optFloatV d.cost)]
  | .action b d =>
      dupdate (mkDict (commonAttrs b))
        [("action.type", optStrV d.actionType),
         ("action.params", optV b.params),
         ("action.result", optV b.returns),
         ("action.logs", optV d.logs),
         ("action_type", optStrV d.actionType),
         ("params", optV b.params),
         ("returns", optV b.returns),
         ("logs", optV d.logs)]
  | .tool b d =>
      dupdate (mkDict (commonAttrs b))
        [("tool.name", optStrV d.name),
         ("tool.params", optV b.params),
         ("tool.result", optV b.returns),
         ("tool.logs", optV d.logs),
         ("name", optStrV d.name),
         ("params", optV b.params),
         ("returns", optV b.returns),
         ("logs", optV d.logs)]
  | .err b d =>
      let withError :=
        dupdate (mkDict (commonAttrs b))
          [("error", .pbool true),
           ("error.type", optStrV d.errorType),
           ("error.details", optV d.details),
           ("error", .pbool true),
           ("error_type", optStrV d.errorType),
           ("details", optV d.details),
           ("trigger_event", match d.triggerEvent with
             | some t => .pobj t.objRepr
             | none => .pnone)]
      (match d.triggerEvent with
       | some t =>
           dupdate withError
             [("trigger_event.id", .pstr (uuidStr t.id)),
              ("trigger_event.type", eventTypeVal t.eventType),
              ("trigger_event_id", .pstr (uuidStr t.id)),
              ("trigger_event_type", eventTypeVal t.eventType)]
       | none => withError)
  | .generic b => mkDict (commonAttrs b)

/-- Serialized event.data payload of a child span (converter.py lines 288
to 291): json.dumps of the session id taken from the current trace
context and the shortened class name. -/
def eventDataJson (ctxTraceId : Nat) (cls : String) : String :=
  "\x7b\"session_id\": \"" ++ toString ctxTraceId ++ "\", \"event_type\": \"" ++ cls ++ "\"\x7d"

/-- Base attribute entries of create_child_span (converter.py lines 279 to
292). -/
def childBaseAttrs (ctxTraceId : Nat) (b : EventBase) (cls : String) : List (String × PyVal) :=
  [("time.start", .pstr (isoStr b.initTimestamp)),
   ("time.end", optTimeV b.endTimestamp),
   ("event.id", .pstr (uuidStr b.id)),
   ("start_time", .pstr (isoStr b.initTimestamp)),
   ("end_time", optTimeV b.endTimestamp),
   ("event_id", .pstr (uuidStr b.id)),
   ("event.data", .pstr (eventDataJson ctxTraceId cls))]

/-- Transcription of create_child_span (converter.py lines 270 to 348):
one execution span for Action and Tool events, one api call span for LLM
events, no child otherwise.  The ambient trace id read from the current
span context is passed explicitly. -/
def createChildSpan (ctxTraceId : Nat) (e : AOEvent) (parentName : String) :
    Option SpanDefinition :=
  match e with
  | .action b d =>
      let attrs :=
        dupdate (mkDict (childBaseAttrs ctxTraceId b (classShort e)))
          ([("execution.start_time", .pstr (isoStr b.initTimestamp)),
            ("execution.end_time", optTimeV b.endTimestamp),
            ("start_time", .pstr (isoStr b.initTimestamp)),
            ("end_time", optTimeV b.endTimestamp),
            ("action.type", optStrV d.actionType),
            ("action_type", optStrV d.actionType)] ++
           (if pyTruthyOpt b.params then
              [("action.params", .pstr (jsonDumpsP (optV b.params))),
               ("params", .pstr (jsonDumpsP (optV b.params)))]
            else []))
      some (mkSpanDefinition (classShort e ++ ".execution") attrs (some parentName)
        (some .internal))
  | .tool b d =>
      let attrs :=
        dupdate (mkDict (childBaseAttrs ctxTraceId b (classShort e)))
          ([("execution.start_time", .pstr (isoStr b.initTimestamp)),
            ("execution.end_time", optTimeV b.endTimestamp),
            ("start_time", .pstr (isoStr b.initTimestamp)),
            ("end_time", optTimeV b.endTimestamp),
            ("tool.name", optStrV d.name),
            ("name", optStrV d.name)] ++
           (if pyTruthyOpt b.params then
              [("tool.params", .pstr (jsonDumpsP (optV b.params))),
               ("params", .pstr (jsonDumpsP (optV b.params)))]
            else []))
      some (mkSpanDefinition (classShort e ++ ".execution") attrs (some parentName)
        (some .internal))
  | .llm b d =>
      let attrs :=
        dupdate (mkDict (childBaseAttrs ctxTraceId b (classShort e)))
          [("llm.model", optStrV d.model),
           ("model", optStrV d.model),
           ("llm.request.timestamp", .pstr (isoStr b.initTimestamp)),
           ("llm.response.timestamp", optTimeV b.endTimestamp),
           ("request_timestamp", .pstr (isoStr b.initTimestamp)),
           ("response_timestamp", optTimeV b.endTimestamp)]
      some (mkSpanDefinition "llm.api.call" attrs (some parentName) (some .client))
  | _ => none

/-- Transcription of convert_event (converter.py lines 137 to 151): the
primary span followed by the child span when one exists. -/
def convertEvent (ctxTraceId : Nat) (e : AOEvent) : List SpanDefinition :=
  let mainSpan :=
    mkSpanDefinition (getSpanName e) (getSpanAttributes e) none (some (getSpanKind e))
  match createChildSpan ctxTraceId e mainSpan.name with
  | some child => [mainSpan, child]
  | none => [mainSpan]

/-
Concrete instances used by witnesses and counterexamples.
-/

/-- Folding a list of record calls over a session. -/
def runRecords (s : Session) (es : List AOEvent) : Session := es.foldl Session.record s

/-- The number of events of a given category in a list. -/
def countCat (es : List AOEvent) (k : String) : Nat :=
  es.countP (fun e => eventTypeStrOf e == k)

/-- The ErrorEvent used to refute the literal defaulting claim: error_type
is explicitly given as the empty string. -/
def errEvC10 : ErrorEventFields :=
  { endTimestamp := none, triggerEvent := none,
    exception := some { className := "ValueError", msg := "bad value" },
    errorType := some "", code := none, details := none }

/-- A concrete event base for witnesses. -/
def evBaseW (k : EventKind) : EventBase :=
  { eventType := .inl k, params := none, returns := none, initTimestamp := 1,
    endTimestamp := none, agentId := none, id := 11, sessionId := some 1 }

/-- A concrete llm payload with every optional field missing. -/
def llmDataNone : LLMData :=
  { threadId := none, prompt := none, promptTokens := none,
    completion := none, completionTokens := none, cost := none, model := none }

/-- The two concrete events of the counter witness. -/
def evListW : List AOEvent :=
  [.llm (evBaseW .llms) llmDataNone, .tool (evBaseW .tools) { name := none, logs := none }]

/-- Operation sequence for the invariant witness: one record, one end. -/
def opsW : List SOp :=
  [.recE (.tool (evBaseW .tools) { name := none, logs := none }),
   .endS 4 "Success" none none (some (some 2))]

/-- The LLM event with every optional field missing used to refute the
null-placeholder claim. -/
def evLLM0 : AOEvent := .llm (evBaseW .llms) llmDataNone

/-- The generic event of the attribute witness. -/
def evG0 : AOEvent := .generic (evBaseW .apis)

/-
Helper lemmas.
-/

/-- The events list built by export is nonempty whenever the span batch
is. -/
lemma buildEvents_ne_nil {spans : List RSpan} (h : spans ≠ []) : buildEvents spans ≠ [] := by
  cases spans with
  | nil => exact absurd rfl h
  | cons x xs =>
    intro heq
    rw [buildEvents, List.append_eq_nil] at heq
    by_cases hx : x.isSessionSpan
    · have hx2 : x ∈ List.filter RSpan.isSessionSpan (x :: xs) := by
        simp [List.mem_filter, hx]
      rw [heq.2] at hx2
      exact absurd hx2 (List.not_mem_nil x)
    · have hx2 : x ∈ List.filter (fun sp => !sp.isSessionSpan) (x :: xs) := by
        simp [List.mem_filter, hx]
      rw [heq.1] at hx2
      exact absurd hx2 (List.not_mem_nil x)

/-- The llms field after a keyed increment. -/
lemma incrKey_llms (c : EventCounts) (q : String) :
    (c.incrKey q).llms = if q = "llms" then c.llms + 1 else c.llms := by
  unfold EventCounts.incrKey
  split_ifs <;> rfl

/-- The tools field after a keyed increment. -/
lemma incrKey_tools (c : EventCounts) (q : String) :
    (c.incrKey q).tools = if q = "tools" then c.tools + 1 else c.tools := by
  unfold EventCounts.incrKey
  split_ifs <;> first | rfl | simp_all

/-- The actions field after a keyed increment. -/
lemma incrKey_actions (c : EventCounts) (q : String) :
    (c.incrKey q).actions = if q = "actions" then c.actions + 1 else c.actions := by
  unfold EventCounts.incrKey
  split_ifs <;> first | rfl | simp_all

/-- The errors field after a keyed increment. -/
lemma incrKey_errors (c : EventCounts) (q : String) :
    (c.incrKey q).errors = if q = "errors" then c.errors + 1 else c.errors := by
  unfold EventCounts.incrKey
  split_ifs <;> first | rfl | simp_all

/-- The apis field after a keyed increment. -/
lemma incrKey_apis (c : EventCounts) (q : String) :
    (c.incrKey q).apis = if q = "apis" then c.apis + 1 else c.apis := by
  unfold EventCounts.incrKey
  split_ifs <;> first | rfl | simp_all

/-- Dictionary lookup after a counter increment. -/
lemma get_incrKey (c : EventCounts) (k q : String) (hk : k ∈ catKeys) :
    (c.incrKey q).get k = if q = k then (c.get k).map (· + 1) else c.get k := by
  have hL : ∀ d : EventCounts, d.get "llms" = some d.llms := fun d => rfl
  have hT : ∀ d : EventCounts, d.get "tools" = some d.tools := fun d => rfl
  have hA : ∀ d : EventCounts, d.get "actions" = some d.actions := fun d => rfl
  have hE : ∀ d : EventCounts, d.get "errors" = some d.errors := fun d => rfl
  have hP : ∀ d : EventCounts, d.get "apis" = some d.apis := fun d => rfl
  simp only [catKeys, List.mem_cons, List.not_mem_nil, or_false] at hk
  rcases hk with rfl | rfl | rfl | rfl | rfl
  · rw [hL, hL, incrKey_llms]
    by_cases h : q = "llms" <;> simp [h]
  · rw [hT, hT, incrKey_tools]
    by_cases h : q = "tools" <;> simp [h]
  · rw [hA, hA, incrKey_actions]
    by_cases h : q = "actions" <;> simp [h]
  · rw [hE, hE, incrKey_errors]
    by_cases h : q = "errors" <;> simp [h]
  · rw [hP, hP, incrKey_apis]
    by_cases h : q = "apis" <;> simp [h]

/-- Recording an event leaves the running flag unchanged. -/
lemma record_isRunning (s : Session) (e : AOEvent) : (s.record e).isRunning = s.isRunning := by
  by_cases h : s.isRunning
  · simp [Session.record, h]
  · simp [Session.record, h]

/-- Counter lookup after recording one event on a running session. -/
lemma record_get (s : Session) (e : AOEvent) (k : String) (hk : k ∈ catKeys)
    (hrun : s.isRunning = true) :
    (s.record e).eventCounts.get k =
      if eventTypeStrOf e = k then (s.eventCounts.get k).map (· + 1)
      else s.eventCounts.get k := by
  simp [Session.record, hrun, get_incrKey _ _ _ hk]

/-- Counter lookup after a sequence of record calls on a running session. -/
lemma runRecords_get (s : Session) (es : List AOEvent) (k : String) (hk : k ∈ catKeys)
    (hrun : s.isRunning = true) :
    (runRecords s es).eventCounts.get k =
      (s.eventCounts.get k).map (fun n => n + countCat es k) := by
  induction es generalizing s with
  | nil =>
    simp only [runRecords, List.foldl_nil, countCat, List.countP_nil]
    cases s.eventCounts.get k <;> simp
  | cons e rest ih =>
    have hrec := ih (s.record e) (by rw [record_isRunning]; exact hrun)
    simp only [runRecords, List.foldl_cons] at hrec ⊢
    rw [hrec, record_get s e k hk hrun]
    simp only [countCat, List.countP_cons]
    by_cases hp : eventTypeStrOf e = k
    · simp only [hp, if_pos rfl, beq_self_eq_true, if_true]
      cases s.eventCounts.get k with
      | none => simp
      | some n =>
        simp
        omega
    · have hb : (eventTypeStrOf e == k) = false := by
        simp [hp]
      simp only [if_neg hp, hb, if_false]
      cases s.eventCounts.get k <;> simp

/-
Claim theorems.
-/

/-- Claim C7: for every positive max_queue_size, the derived
max_export_batch_size equals min(max(q div 20, 1), min(q, 32)), which is
clamp(q div 20, 1, min(q, 32)) and lies within those bounds; for
max_queue_size 512 it equals 25. -/
theorem max_export_batch_size_clamp (q : Nat) (h : 0 < q) :
    maxExportBatchSize q = min (max (q / 20) 1) (min q 32) ∧
    maxExportBatchSize q = specClamp (q / 20) 1 (min q 32) ∧
    1 ≤ maxExportBatchSize q ∧
    maxExportBatchSize q ≤ min q 32 ∧
    maxExportBatchSize 512 = 25 := by
  refine ⟨rfl, rfl, ?_, ?_, by decide⟩ <;>
    · unfold maxExportBatchSize
      omega

/-- Witness for the batch size claim at max_queue_size 512. -/
theorem max_export_batch_size_clamp_witness :
    0 < 512 ∧ maxExportBatchSize 512 = 25 :=
  ⟨by decide, (max_export_batch_size_clamp 512 (by decide)).2.2.2.2⟩

/-- Claim C6: export returns success with no network call once shut down
or on an empty batch; otherwise it performs exactly one post and maps
HTTP 200 to success, any other code to failure, and an exception to
failure, re-raised instead in strict (TESTING) mode. -/
theorem exporter_export_contract (testing shutdownFlag : Bool) (spans : List RSpan)
    (net : PostResponse) :
    (shutdownFlag = true →
      sessionExport testing shutdownFlag spans net = (.ok .success, 0)) ∧
    (spans = [] →
      sessionExport testing shutdownFlag spans net = (.ok .success, 0)) ∧
    (shutdownFlag = false → spans ≠ [] →
      (sessionExport testing shutdownFlag spans net).2 = 1 ∧
      (net = some 200 →
        sessionExport testing shutdownFlag spans net = (.ok .success, 1)) ∧
      (∀ c, net = some c → c ≠ 200 →
        sessionExport testing shutdownFlag spans net = (.ok .failure, 1)) ∧
      (net = none → testing = false →
        sessionExport testing shutdownFlag spans net = (.ok .failure, 1)) ∧
      (net = none → testing = true →
        sessionExport testing shutdownFlag spans net = (.raised, 1))) := by
  refine ⟨?_, ?_, ?_⟩
  · intro h
    simp [sessionExport, h]
  · intro h
    subst h
    cases shutdownFlag <;> simp [sessionExport]
  · intro hs hne
    have hbe : (buildEvents spans).isEmpty = false := by
      rw [List.isEmpty_eq_false]
      exact buildEvents_ne_nil hne
    have hse : spans.isEmpty = false := by
      rw [List.isEmpty_eq_false]
      exact hne
    refine ⟨?_, ?_, ?_, ?_, ?_⟩
    · cases net <;> simp [sessionExport, hs, hse, hbe]
    · intro hc
      subst hc
      simp [sessionExport, hs, hse, hbe]
    · intro c hc hc200
      subst hc
      simp [sessionExport, hs, hse, hbe, hc200]
    · intro hn ht
      subst hn
      simp [sessionExport, hs, hse, hbe, ht]
    · intro hn ht
      subst hn
      simp [sessionExport, hs, hse, hbe, ht]

/-- Witness for the exporter contract: a one-span batch against an
endpoint answering 500 yields exactly one call and a returned failure
result, not a raise. -/
theorem exporter_export_contract_witness :
    (sessionExport false false [{ attrKeys := ["event.id"], payload := "p" }] (some 500)).2 = 1 ∧
    sessionExport false false [{ attrKeys := ["event.id"], payload := "p" }] (some 500)
      = (.ok .failure, 1) := by
  have h := (exporter_export_contract false false
    [{ attrKeys := ["event.id"], payload := "p" }] (some 500)).2.2 rfl (by decide)
  exact ⟨h.1, h.2.2.1 500 rfl (by decide)⟩

/-- Claim C5: an event terminal timestamp is assigned at most once: the
defaulting step of on_event_record and the on_event_completed handler
never overwrite a set end_timestamp, the on_event_recorded handler fails
loudly (assertion error) when the timestamp is already set, and the
timestamp is assigned when unset. -/
theorem event_terminal_timestamp_once (e : EventBase) (t now : Nat)
    (h : e.endTimestamp = some t) :
    (onEventRecordDefaults e now).endTimestamp = some t ∧
    (onEventCompleted e now).endTimestamp = some t ∧
    onEventRecorded e now =
      .error "Programming error: attempted ending an Event with valued end_timestamp" ∧
    (∀ e2 : EventBase, e2.endTimestamp = none →
      onEventRecorded e2 now = .ok { e2 with endTimestamp := some now }) := by
  refine ⟨?_, ?_, ?_, ?_⟩
  · simp [onEventRecordDefaults, h]
  · simp [onEventCompleted, h]
  · simp [onEventRecorded, h]
  · intro e2 h2
    simp [onEventRecorded, h2]

/-- Witness for the terminal timestamp claim at a concrete closed event. -/
theorem event_terminal_timestamp_once_witness :
    (onEventRecordDefaults
        { eventType := .inl .llms, params := none, returns := none, initTimestamp := 1,
          endTimestamp := some 5, agentId := none, id := 3, sessionId := none } 9).endTimestamp
      = some 5 ∧
    onEventRecorded
        { eventType := .inl .llms, params := none, returns := none, initTimestamp := 1,
          endTimestamp := some 5, agentId := none, id := 3, sessionId := none } 9
      = .error "Programming error: attempted ending an Event with valued end_timestamp" := by
  have h := event_terminal_timestamp_once
    { eventType := .inl .llms, params := none, returns := none, initTimestamp := 1,
      endTimestamp := some 5, agentId := none, id := 3, sessionId := none } 5 9 rfl
  exact ⟨h.1, h.2.2.1⟩

/-- Counterexample to claim C10 as stated: an explicitly given error_type
(the empty string) is nevertheless replaced by the exception class name,
because the code uses Python or-defaulting, which treats any falsy value
as missing. -/
theorem error_event_ctor_counterexample :
    errEvC10.errorType = some "" ∧
    (errorEventPostInit errEvC10 7).errorType = some "ValueError" ∧
    (errorEventPostInit errEvC10 7).errorType ≠ errEvC10.errorType := by
  refine ⟨rfl, ?_, ?_⟩ <;> decide

/-- Claim C10 (amended): when an ErrorEvent is constructed with an
exception, error_type defaults to the exception class name and details to
its str() form unless explicitly given a truthy (non-empty) value; an
explicitly given falsy value is also replaced.  The exception field is
cleared to None, and end_timestamp is stamped at construction when not
already provided and kept otherwise. -/
theorem error_event_ctor_defaults (e : ErrorEventFields) (exc : PyExc) (now : Nat)
    (h : e.exception = some exc) :
    (pyTruthyStrOpt e.errorType = true →
      (errorEventPostInit e now).errorType = e.errorType) ∧
    (pyTruthyStrOpt e.errorType = false →
      (errorEventPostInit e now).errorType = some exc.className) ∧
    (pyTruthyOpt e.details = true → (errorEventPostInit e now).details = e.details) ∧
    (pyTruthyOpt e.details = false →
      (errorEventPostInit e now).details = some (.pstr exc.msg)) ∧
    (errorEventPostInit e now).exception = none ∧
    (e.endTimestamp = none → (errorEventPostInit e now).endTimestamp = some now) ∧
    (∀ t, e.endTimestamp = some t → (errorEventPostInit e now).endTimestamp = some t) := by
  unfold errorEventPostInit
  rw [h]
  refine ⟨?_, ?_, ?_, ?_, ?_, ?_, ?_⟩
  · intro hx
    cases he : e.endTimestamp <;> simp [hx, he]
  · intro hx
    cases he : e.endTimestamp <;> simp [hx, he]
  · intro hx
    cases he : e.endTimestamp <;> simp [hx, he]
  · intro hx
    cases he : e.endTimestamp <;> simp [hx, he]
  · cases he : e.endTimestamp <;> simp [he]
  · intro hx
    simp [hx]
  · intro t ht
    simp [ht]

/-- Claim C2: after any sequence of record calls on a live session, each
of the five category counters equals its starting value plus the number
of recorded events of that category, and no counter ever decreases across
a record call. -/
theorem event_counts_match_records (s : Session) (es : List AOEvent) (k : String)
    (hk : k ∈ catKeys) (hrun : s.isRunning = true) :
    ((runRecords s es).eventCounts.get k =
        (s.eventCounts.get k).map (fun n => n + countCat es k)) ∧
    (∀ (s2 : Session) (e : AOEvent) (n : Nat), s2.eventCounts.get k = some n →
        ∃ m, (s2.record e).eventCounts.get k = some m ∧ n ≤ m) := by
  refine ⟨runRecords_get s es k hk hrun, ?_⟩
  intro s2 e n hn
  by_cases hr : s2.isRunning
  · rw [record_get s2 e k hk hr]
    by_cases hp : eventTypeStrOf e = k
    · exact ⟨n + 1, by simp [hp, hn], Nat.le_succ n⟩
    · exact ⟨n, by simp [hp, hn], le_refl n⟩
  · have : s2.record e = s2 := by
      simp [Session.record, hr]
    rw [this]
    exact ⟨n, hn, le_refl n⟩

/-- Witness for the counter claim: one llm event and one tool event
recorded on a fresh session give an llms counter of one. -/
theorem event_counts_match_records_witness :
    (runRecords sessionZero evListW).eventCounts.get "llms" = some 1 := by
  have h := (event_counts_match_records sessionZero evListW "llms" (by decide) rfl).1
  rw [h]
  decide

/-- A session that is no longer running is returned unchanged by end with
no result and no effects. -/
lemma endSession_not_running (s : Session) (now : Nat) (es : String)
    (reason : Option String) (video : Option String) (net : UpdateResponse)
    (h : s.isRunning = false) :
    s.endSession now es reason video net = (s, none, []) := by
  simp [Session.endSession, h]

/-- Claim C1: the first end call on a running session performs the
lifecycle work (session_ending, one update call, session_ended, flush),
leaves the session terminal, and returns the token cost the update
response carried; every subsequent end call on the resulting session is a
no-op returning None with no effects. -/
theorem session_end_idempotent (s : Session) (now : Nat) (es : String)
    (reason : Option String) (video : Option String) (net : UpdateResponse)
    (hrun : s.isRunning = true) (hval : validEndState es = true) :
    ((s.endSession now es reason video net).1.isRunning = false) ∧
    ((s.endSession now es reason video net).2.2
        = [.sessionEnding, .netUpdate, .sessionEnded, .flushSpans]) ∧
    (∀ tc, net = some tc →
      (s.endSession now es reason video net).2.1 = some (tc.getD 0)) ∧
    (net = none → (s.endSession now es reason video net).2.1 = none) ∧
    (∀ now2 es2 r2 v2 net2,
      ((s.endSession now es reason video net).1).endSession now2 es2 r2 v2 net2
        = ((s.endSession now es reason video net).1, none, [])) := by
  refine ⟨?_, ?_, ?_, ?_, ?_⟩
  · cases net <;> simp [Session.endSession, Session.getAnalytics, hrun, hval]
  · cases net <;> simp [Session.endSession, Session.getAnalytics, hrun, hval]
  · intro tc htc
    subst htc
    simp [Session.endSession, Session.getAnalytics, hrun, hval]
  · intro hn
    subst hn
    simp [Session.endSession, Session.getAnalytics, hrun, hval]
  · intro now2 es2 r2 v2 net2
    apply endSession_not_running
    cases net <;> simp [Session.endSession, Session.getAnalytics, hrun, hval]

/-- Witness for the idempotence claim: ending a fresh session with Success
terminates it, returns the token cost from the update response, and a
second end is a no-op. -/
theorem session_end_idempotent_witness :
    ((sessionZero.endSession 1 "Success" none none (some (some 4))).1.isRunning = false) ∧
    ((sessionZero.endSession 1 "Success" none none (some (some 4))).2.1 = some 4) ∧
    (((sessionZero.endSession 1 "Success" none none (some (some 4))).1).endSession
        2 "Fail" none none (some (some 9))
      = ((sessionZero.endSession 1 "Success" none none (some (some 4))).1, none, [])) := by
  have h := session_end_idempotent sessionZero 1 "Success" none none (some (some 4)) rfl
    (by decide)
  exact ⟨h.1, h.2.2.1 (some 4) rfl, h.2.2.2.2 2 "Fail" none none (some (some 9))⟩

/-- Counterexample to claim C3 as stated: the code performs no
case-insensitive normalization and no degradation to a terminal
Indeterminate state.  The canonical spelling SUCCEEDED and the lowercase
alias success are both rejected with a warning, leaving the session
running with no terminal data, while the exact string Success ends it. -/
theorem end_state_normalization_counterexample :
    ((sessionZero.endSession 3 "SUCCEEDED" none none (some (some 5))).1.isRunning = true) ∧
    ((sessionZero.endSession 3 "SUCCEEDED" none none (some (some 5))).1.endTimestamp = none) ∧
    ((sessionZero.endSession 3 "SUCCEEDED" none none (some (some 5))).2.2
        = [.warnInvalidEndState]) ∧
    ((sessionZero.endSession 3 "success" none none (some (some 5))).1.isRunning = true) ∧
    ((sessionZero.endSession 3 "Success" none none (some (some 5))).1.isRunning = false) := by
  refine ⟨?_, ?_, ?_, ?_, ?_⟩ <;> decide

/-- Claim C3 (amended): end recognizes exactly the case-sensitive strings
Success, Fail and Indeterminate; any other end_state string makes end log
a warning and return None, leaving the session state untouched and still
running (no exception is raised, the modelled call is total). -/
theorem end_state_invalid_is_warning_noop (s : Session) (now : Nat) (es : String)
    (reason : Option String) (video : Option String) (net : UpdateResponse)
    (hrun : s.isRunning = true) (hinv : validEndState es = false) :
    s.endSession now es reason video net = (s, none, [.warnInvalidEndState]) := by
  simp [Session.endSession, hrun, hinv]

/-- Witness for the amended end_state claim at a concrete rejected
string. -/
theorem end_state_invalid_is_warning_noop_witness :
    sessionZero.endSession 3 "FAILED" none none none
      = (sessionZero, none, [.warnInvalidEndState]) :=
  end_state_invalid_is_warning_noop sessionZero 3 "FAILED" none none none rfl (by decide)

/-- One non-analytics public operation preserves the terminal-timestamp
invariant. -/
lemma applySOp_preserves_inv (s : Session) (op : SOp)
    (hinv : s.endTimestamp.isSome = !s.isRunning) (hop : op.isAnalytics = false) :
    (applySOp s op).endTimestamp.isSome = !(applySOp s op).isRunning := by
  cases op with
  | recE e =>
    by_cases h : s.isRunning
    · simp [applySOp, Session.record, h, hinv]
    · simp [applySOp, Session.record, h, hinv]
  | addT ts =>
    by_cases h : s.isRunning
    · simp [applySOp, Session.addTags, h, hinv]
    · simp [applySOp, Session.addTags, h, hinv]
  | setT ts =>
    by_cases h : s.isRunning
    · simp [applySOp, Session.setTags, h, hinv]
    · simp [applySOp, Session.setTags, h, hinv]
  | endS now es r v net =>
    by_cases hr : s.isRunning
    · by_cases hv : validEndState es
      · cases net with
        | none => simp [applySOp, Session.endSession, Session.getAnalytics, hr, hv]
        | some tc => simp [applySOp, Session.endSession, Session.getAnalytics, hr, hv]
      · simp [applySOp, Session.endSession, hr, hv, hinv]
    · simp [applySOp, Session.endSession, hr, hinv]
  | analytics now net => simp [SOp.isAnalytics] at hop

/-- Counterexample to claim C4 as stated: get_analytics is a public
operation that assigns end_timestamp on a still-running session, so after
it the session is running yet carries an end_timestamp. -/
theorem end_timestamp_iff_terminal_counterexample :
    ((sessionZero.getAnalytics 5 none).1.isRunning = true) ∧
    ((sessionZero.getAnalytics 5 none).1.endTimestamp = some 5) ∧
    ((applySOp sessionZero (.analytics 5 none)).isRunning = true) ∧
    ((applySOp sessionZero (.analytics 5 none)).endTimestamp.isSome = true) := by
  refine ⟨?_, ?_, ?_, ?_⟩ <;> decide

/-- Claim C4 (amended): over sequences of the public operations record,
add_tags, set_tags and end, a session satisfying the invariant keeps it:
end_timestamp is set exactly when the session is no longer running.  The
get_analytics operation is excluded, since it assigns end_timestamp
without ending the session. -/
theorem end_timestamp_iff_terminal (s : Session) (ops : List SOp)
    (hinv : s.endTimestamp.isSome = !s.isRunning)
    (hno : ∀ op ∈ ops, op.isAnalytics = false) :
    (runOps s ops).endTimestamp.isSome = !(runOps s ops).isRunning := by
  induction ops generalizing s with
  | nil => exact hinv
  | cons op rest ih =>
    have hstep := applySOp_preserves_inv s op hinv (hno op (List.mem_cons_self op rest))
    have htail : ∀ o ∈ rest, o.isAnalytics = false :=
      fun o ho => hno o (List.mem_cons_of_mem op ho)
    have := ih (applySOp s op) hstep htail
    simpa [runOps] using this

/-- Witness for the amended terminal-timestamp invariant on a concrete
operation sequence. -/
theorem end_timestamp_iff_terminal_witness :
    (runOps sessionZero opsW).endTimestamp.isSome = !(runOps sessionZero opsW).isRunning :=
  end_timestamp_iff_terminal sessionZero opsW rfl (by decide)

/-- Claim C8: the translator produces a primary span named by the event
category, plus exactly one execution or call child span for LLM, Action
and Tool events and no child span for Error or generic events. -/
theorem convert_event_span_names (ctx : Nat) (e : AOEvent) :
    (convertEvent ctx e).map SpanDefinition.name =
      (match e with
       | .llm _ _ => ["llm.completion", "llm.api.call"]
       | .action _ _ => ["agent.action", "action.execution"]
       | .tool _ _ => ["agent.tool", "tool.execution"]
       | .err _ _ => ["error"]
       | .generic _ => ["event"]) := by
  cases e <;> rfl

/-- Counterexample to claim C9 as stated: a missing optional field is not
omitted from the attribute set; the model attribute of both spans of an
LLM event without a model is attached with the None placeholder value. -/
theorem span_null_placeholder_counterexample :
    llmDataNone.model = none ∧
    (convertEvent 0 evLLM0).map (fun sp => sp.attributes.lookup "llm.model")
      = [some PyVal.pnone, some PyVal.pnone] := by
  refine ⟨rfl, ?_⟩
  decide

/-- Claim C9 (amended): every attribute value attached to a span produced
by the translator is a primitive or None: span_safe serializes
non-primitive values (UUIDs, mappings, sequences, objects) to strings,
but optional fields that are missing are attached as None placeholders
rather than omitted. -/
theorem span_attribute_values_primitive_or_none (ctx : Nat) (e : AOEvent)
    (sp : SpanDefinition) (hsp : sp ∈ convertEvent ctx e)
    (kv : String × PyVal) (hkv : kv ∈ sp.attributes) :
    isPrimOrNone kv.2 = true := by
  have hprim : ∀ v : PyVal, isPrimOrNone (spanSafe v) = true := by
    intro v
    cases v <;> rfl
  have key : ∀ (n : String) (a : AList) (p : Option String) (k : Option SpanKind),
      kv ∈ (mkSpanDefinition n a p k).attributes → isPrimOrNone kv.2 = true := by
    intro n a p k hm
    simp only [mkSpanDefinition] at hm
    rcases List.mem_map.mp hm with ⟨x, _, hxe⟩
    rw [← hxe]
    exact hprim x.2
  cases e with
  | llm b d =>
    cases hsp with
    | head => exact key _ _ _ _ hkv
    | tail _ h =>
      cases h with
      | head => exact key _ _ _ _ hkv
      | tail _ h2 => cases h2
  | action b d =>
    cases hsp with
    | head => exact key _ _ _ _ hkv
    | tail _ h =>
      cases h with
      | head => exact key _ _ _ _ hkv
      | tail _ h2 => cases h2
  | tool b d =>
    cases hsp with
    | head => exact key _ _ _ _ hkv
    | tail _ h =>
      cases h with
      | head => exact key _ _ _ _ hkv
      | tail _ h2 => cases h2
  | err b d =>
    cases hsp with
    | head => exact key _ _ _ _ hkv
    | tail _ h => cases h
  | generic b =>
    cases hsp with
    | head => exact key _ _ _ _ hkv
    | tail _ h => cases h

/-- Witness for the amended attribute claim on a concrete attribute of a
concrete span. -/
theorem span_attribute_values_primitive_or_none_witness :
    isPrimOrNone (PyVal.pstr (uuidStr 11)) = true := by
  apply span_attribute_values_primitive_or_none 0 evG0
      (mkSpanDefinition "event" (getSpanAttributes evG0) none (some (getSpanKind evG0)))
      (by decide)
      ("event.id", PyVal.pstr (uuidStr 11))
      (by decide)

/-- Witness for the amended ErrorEvent construction claim. -/
theorem error_event_ctor_defaults_witness :
    (errorEventPostInit
        { endTimestamp := none, triggerEvent := none,
          exception := some { className := "KeyError", msg := "missing" },
          errorType := none, code := none, details := none } 3).errorType = some "KeyError" ∧
    (errorEventPostInit
        { endTimestamp := none, triggerEvent := none,
          exception := some { className := "KeyError", msg := "missing" },
          errorType := none, code := none, details := none } 3).exception = none ∧
    (errorEventPostInit
        { endTimestamp := none, triggerEvent := none,
          exception := some { className := "KeyError", msg := "missing" },
          errorType := none, code := none, details := none } 3).endTimestamp = some 3 := by
  have h := error_event_ctor_defaults
    { endTimestamp := none, triggerEvent := none,
      exception := some { className := "KeyError", msg := "missing" },
      errorType := none, code := none, details := none }
    { className := "KeyError", msg := "missing" } 3 rfl
  exact ⟨h.2.1 rfl, h.2.2.2.2.1, h.2.2.2.2.2.1 rfl⟩

end AgentOps
